import Mathlib

/-
Verification of the timeout-guarded execution wrapper
`timeout_decorator` in `czsc/utils/__init__.py` (lines 229-262).

The wrapper runs `func(*args, **kwargs)` on a fresh worker thread,
joins with `timeout`, and then:
  - if the thread is still alive, logs a warning and returns `None`;
  - else, if the exception cell is truthy, re-raises it;
  - else, returns the result cell.

The shallow embedding below models one invocation of the decorated
function.  A work item's behaviour at a given argument binding is a
`WorkRun`: it terminates normally at some time with a value, raises at
some time, or never terminates.  Machine-level thread scheduling is
abstracted to this single termination observation; `thread.join(d)` for
a finite `d` clamps a negative deadline to zero (CPython clamps the
join timeout with `max(timeout, 0)`), and the thread is seen as finished
by the join exactly when its termination time is within the clamped
wait.  The wrapper's observable behaviour (returned value or raised
exception, log events, whether the worker thread was started and whether
it is still alive at return) is collected in a `WrapperTrace`.
-/

set_option autoImplicit false

namespace CzscTimeout

/-- A Python value as far as the wrapper can observe it.  `PyVal.none`
models the Python singleton `None`; the wrapper's result cell is
initialised to it (`result = [None]`) and the timeout path returns it. -/
inductive PyVal where
  | none
  | int (n : Int)
  | str (s : String)
  deriving DecidableEq, Repr

/-- A Python exception object.  `ty`/`msg` stand for its type and
content, so equality of `PyExc` values models "same identity, type and
content".  `isException` records whether the object is an instance of
`Exception` (as opposed to a bare `BaseException` such as `SystemExit`),
which is what the worker's `except Exception` clause tests.  `truthy` is
the object's Python truth value, which the wrapper's `if exception[0]:`
test consults; ordinary exceptions are truthy, but a class overriding
`__bool__`/`__len__` can be falsy. -/
structure PyExc where
  ty : String
  msg : String
  isException : Bool
  truthy : Bool
  deriving DecidableEq, Repr

/-- The behaviour of one execution of `func(*args, **kwargs)`:
terminate normally at time `t` with value `v`, raise exception `e` at
time `t`, or never terminate.  Times are abstract duration units
(the source uses seconds). -/
inductive WorkRun where
  | ret (t : Nat) (v : PyVal)
  | exc (t : Nat) (e : PyExc)
  | diverge
  deriving DecidableEq, Repr

/-- The time at which the worker thread terminates, if it ever does.
When the work raises, the thread still terminates at that time (either
the `except Exception` clause stores the exception and `target` returns,
or a `BaseException` unwinds and kills the thread). -/
def WorkRun.finishTime : WorkRun → Option Nat
  | .ret t _ => some t
  | .exc t _ => some t
  | .diverge => Option.none

/-- Contents of the two cells `result`/`exception` once `target()` has
finished.  `target` runs `result[0] = func(*args, **kwargs)` inside
`try ... except Exception as e: exception[0] = e`: a normal return fills
the result cell; a raised `Exception` fills the exception cell; a
`BaseException` that is not an `Exception` escapes the handler and
leaves both cells at their initial `None`.  For a diverging run the
cells keep their initial values forever. -/
def targetCells : WorkRun → PyVal × Option PyExc
  | .ret _ v => (v, Option.none)
  | .exc _ e => if e.isException then (PyVal.none, some e) else (PyVal.none, Option.none)
  | .diverge => (PyVal.none, Option.none)

/-- The decorated callable `func`: its `__name__`, its `__doc__`, and
its behaviour as a function of the bound positional and keyword
arguments. -/
structure PyFunc where
  name : String
  doc : String
  run : List PyVal → List (String × PyVal) → WorkRun

/-- Severity of a log event; the wrapper only ever uses
`logger.warning`. -/
inductive Severity where
  | warning
  | info
  deriving DecidableEq, Repr

/-- One emitted log event.  The wrapper's single log line is
`f"{func.__name__} timed out after {timeout} seconds; args: {args};
kwargs: {kwargs}"`, so the event carries the function's declared name,
the deadline and the bound arguments. -/
structure LogEvent where
  level : Severity
  funcName : String
  timeoutSecs : Option Int
  args : List PyVal
  kwargs : List (String × PyVal)
  deriving DecidableEq, Repr

/-- What one call of the decorated function does at the caller's
boundary: return a value, raise an exception, or never return (only
possible when the join has no deadline and the work diverges). -/
inductive CallResult where
  | returns (v : PyVal)
  | raises (e : PyExc)
  | hangs
  deriving DecidableEq, Repr

/-- Observable trace of one invocation of the wrapper.
`threadStarted` records whether a worker thread was created and started
(in the source this happens unconditionally, before any check of the
deadline).  `timedOutBranch` records whether the `if thread.is_alive():`
branch was taken.  `workerAliveAtReturn` is the value `thread.is_alive()`
would have when the wrapper returns (for a hanging call it records that
the worker runs forever).  `interruptSent` records whether any
cancellation or interruption signal was delivered to the worker; the
source contains no such mechanism, so the embedding sets it on no path.
`returnTime` is when the wrapper returns to the caller, if ever.
`eventualCells` is what the cells hold once the worker finishes, whether
or not the wrapper is still around to read them. -/
structure WrapperTrace where
  threadStarted : Bool
  logs : List LogEvent
  outcome : CallResult
  timedOutBranch : Bool
  workerAliveAtReturn : Bool
  interruptSent : Bool
  returnTime : Option Nat
  eventualCells : PyVal × Option PyExc
  deriving DecidableEq, Repr

/-- The `if exception[0]: raise exception[0]` / `return result[0]` tail
of the wrapper, reached when the join saw the thread finish.  Note the
truthiness test: a stored exception whose truth value is `False` is not
re-raised; the wrapper falls through and returns the result cell. -/
def settle (run : WorkRun) : CallResult :=
  match targetCells run with
  | (res, Option.none) => .returns res
  | (res, some e) => if e.truthy then .raises e else .returns res

/-- Trace of the path where the join observed the thread finish at time
`t`: no log, no timeout branch, outcome decided by `settle`. -/
def finishTrace (run : WorkRun) (t : Nat) : WrapperTrace :=
  { threadStarted := true
    logs := []
    outcome := settle run
    timedOutBranch := false
    workerAliveAtReturn := false
    interruptSent := false
    returnTime := some t
    eventualCells := targetCells run }

/-- Trace of the timeout path: `thread.is_alive()` was true after the
join, so the wrapper logs one warning naming the function and its bound
arguments and returns `None`.  The worker is left running with no
interruption; whatever it eventually writes to the cells is never read
by this caller. -/
def timeoutTrace (d : Int) (name : String) (args : List PyVal)
    (kwargs : List (String × PyVal)) (run : WorkRun) : WrapperTrace :=
  { threadStarted := true
    logs := [{ level := .warning, funcName := name, timeoutSecs := some d,
               args := args, kwargs := kwargs }]
    outcome := .returns PyVal.none
    timedOutBranch := true
    workerAliveAtReturn := true
    interruptSent := false
    returnTime := some d.toNat
    eventualCells := targetCells run }

/-- Trace of the path where `thread.join(None)` never returns because
the work diverges: the call hangs, nothing is logged, the worker runs
forever. -/
def hangTrace (run : WorkRun) : WrapperTrace :=
  { threadStarted := true
    logs := []
    outcome := .hangs
    timedOutBranch := false
    workerAliveAtReturn := true
    interruptSent := false
    returnTime := Option.none
    eventualCells := targetCells run }

/-- Core of `wrapper(*args, **kwargs)` once the work's behaviour `run`
is fixed.  The thread is started unconditionally.  `thread.join(d)` with
a numeric `d` waits `max(d, 0)` (CPython clamps a negative join timeout
to zero) and the thread is seen as finished exactly when its termination
time is within that wait; `thread.join(None)` waits until the thread
terminates, forever if it never does. -/
def wrapperRun (timeout : Option Int) (name : String) (args : List PyVal)
    (kwargs : List (String × PyVal)) (run : WorkRun) : WrapperTrace :=
  match timeout, run.finishTime with
  | Option.none, some t => finishTrace run t
  | Option.none, Option.none => hangTrace run
  | some d, some t =>
      if t ≤ d.toNat then finishTrace run t else timeoutTrace d name args kwargs run
  | some d, Option.none => timeoutTrace d name args kwargs run

/-- One invocation of the decorated function on bound arguments. -/
def wrapperCall (timeout : Option Int) (func : PyFunc) (args : List PyVal)
    (kwargs : List (String × PyVal)) : WrapperTrace :=
  wrapperRun timeout func.name args kwargs (func.run args kwargs)

/-- The decorated callable produced by
`timeout_decorator(timeout)(func)`.  `functools.wraps(func)` copies
`func.__name__` and `func.__doc__` onto the wrapper. -/
structure WrappedFunc where
  name : String
  doc : String
  call : List PyVal → List (String × PyVal) → WrapperTrace

/-- `timeout_decorator(timeout)` applied to `func`. -/
def timeout_decorator (timeout : Option Int) (func : PyFunc) : WrappedFunc :=
  { name := func.name
    doc := func.doc
    call := wrapperCall timeout func }

/-- Cross-invocation state.  The only thing one call can leave behind is
an orphaned worker thread still running after a timeout; the wrapper
itself keeps no globals and allocates its `result`/`exception` cells
afresh inside each call. -/
structure ExecState where
  orphans : List (PyVal × Option PyExc)
  deriving DecidableEq, Repr

/-- One invocation threaded through the cross-invocation state: the
trace is computed exactly as in `wrapperCall`, reading nothing from the
incoming state; a timed-out call adds its abandoned worker's eventual
cells to the orphan list. -/
def wrapperCallSt (timeout : Option Int) (func : PyFunc) (args : List PyVal)
    (kwargs : List (String × PyVal)) (s : ExecState) : WrapperTrace × ExecState :=
  let tr := wrapperCall timeout func args kwargs
  (tr, ⟨if tr.workerAliveAtReturn then s.orphans ++ [tr.eventualCells] else s.orphans⟩)

/- Concrete work items used as test inputs and counterexamples. -/

/-- A work item that returns Python `None` after one time unit. -/
def fNone : PyFunc :=
  { name := "f_none", doc := "returns None quickly", run := fun _ _ => .ret 1 PyVal.none }

/-- A work item that never terminates. -/
def fDiverge : PyFunc :=
  { name := "f_diverge", doc := "never finishes", run := fun _ _ => .diverge }

/-- A work item that returns `42` after one time unit. -/
def fFortyTwo : PyFunc :=
  { name := "f_forty_two", doc := "returns 42", run := fun _ _ => .ret 1 (PyVal.int 42) }

/-- An `Exception` instance whose Python truth value is `False`
(e.g. a subclass overriding `__bool__`). -/
def falsyExc : PyExc := { ty := "FalsyError", msg := "bad input", isException := true, truthy := false }

/-- An ordinary (truthy) `Exception` instance. -/
def valueErr : PyExc := { ty := "ValueError", msg := "bad input", isException := true, truthy := true }

/-- A `BaseException` that is not an `Exception`, such as `SystemExit`. -/
def sysExit : PyExc := { ty := "SystemExit", msg := "", isException := false, truthy := true }

/-- A work item that raises the falsy exception after one time unit. -/
def fFalsy : PyFunc :=
  { name := "f_falsy", doc := "raises a falsy exception", run := fun _ _ => .exc 1 falsyExc }

/-- A work item that raises `ValueError` after one time unit. -/
def fRaise : PyFunc :=
  { name := "f_raise", doc := "raises ValueError", run := fun _ _ => .exc 1 valueErr }

/-- A work item that raises `SystemExit` after one time unit. -/
def fSysExit : PyFunc :=
  { name := "f_sys_exit", doc := "raises SystemExit", run := fun _ _ => .exc 1 sysExit }

/-- C1: the claim says the timeout marker is always distinguishable from
a successful completion whose value is `None`.  At deadline 5, a work
item that completes returning `None` and a work item that times out are
on the two different paths (the worker is dead at return in the first
call and alive in the second), yet the caller-visible outcome of both
calls is the same returned value `None`: the claim is false. -/
theorem C1_counterexample :
    (wrapperCall (some 5) fNone [] []).workerAliveAtReturn = false ∧
    (wrapperCall (some 5) fDiverge [] []).workerAliveAtReturn = true ∧
    (wrapperCall (some 5) fNone [] []).outcome =
      (wrapperCall (some 5) fDiverge [] []).outcome := by
  refine ⟨rfl, rfl, ?_⟩
  rfl

/-- C1 (amended): with a finite deadline each call takes exactly one
path and yields exactly one outcome, but the value returned on the
timeout path is `None`, identical to a successful completion producing
`None`; only the warning log event (a side effect), not the returned
value, distinguishes the timeout path. -/
theorem C1_amended_timeout_returns_none (d : Int) (f : PyFunc) (a : List PyVal)
    (k : List (String × PyVal))
    (h : (wrapperCall (some d) f a k).timedOutBranch = true) :
    (wrapperCall (some d) f a k).outcome = CallResult.returns PyVal.none ∧
    (wrapperCall (some d) f a k).logs =
      [{ level := .warning, funcName := f.name, timeoutSecs := some d,
         args := a, kwargs := k }] := by
  unfold wrapperCall wrapperRun at *
  rcases hr : (f.run a k).finishTime with _ | t <;> simp [hr] at h ⊢
  · exact ⟨rfl, rfl⟩
  · rcases le_or_lt t d.toNat with hle | hlt
    · simp [hle, finishTrace] at h
    · simp [Nat.not_le.mpr hlt, timeoutTrace]

/-- C1 amended, witnessed at deadline 5 on the diverging work item. -/
theorem C1_amended_witness :
    (wrapperCall (some 5) fDiverge [] []).outcome = CallResult.returns PyVal.none :=
  (C1_amended_timeout_returns_none 5 fDiverge [] [] rfl).1

/-- C2: the claim says a zero deadline raises `InvalidDeadline`
synchronously, before any worker thread is started.  At deadline 0 on a
work item finishing after one unit, the source performs no validation:
the worker thread is started, the call raises nothing, and the wrapper
takes the timeout branch, returning `None` with the timeout warning —
exactly the `TimedOut` treatment the claim says such input must never be
conflated with. -/
theorem C2_counterexample :
    (wrapperCall (some 0) fFortyTwo [] []).threadStarted = true ∧
    (wrapperCall (some 0) fFortyTwo [] []).timedOutBranch = true ∧
    (wrapperCall (some 0) fFortyTwo [] []).outcome = CallResult.returns PyVal.none ∧
    (wrapperCall (some 0) fFortyTwo [] []).logs.length = 1 := by
  refine ⟨rfl, rfl, rfl, rfl⟩

/-- C2 (amended): a zero or negative deadline is not validated and
raises nothing: the worker thread is started anyway, the join waits
`max(deadline, 0)`, and any work that has not already finished at time
zero puts the call on the timeout path — returning `None` with the
timeout warning, i.e. conflated with the `TimedOut` outcome. -/
theorem C2_amended_no_validation (d : Int) (f : PyFunc) (a : List PyVal)
    (k : List (String × PyVal))
    (hd : d ≤ 0)
    (hslow : ∀ t, (f.run a k).finishTime = some t → 1 ≤ t) :
    (wrapperCall (some d) f a k).threadStarted = true ∧
    (wrapperCall (some d) f a k).timedOutBranch = true ∧
    (wrapperCall (some d) f a k).outcome = CallResult.returns PyVal.none ∧
    (wrapperCall (some d) f a k).logs.length = 1 := by
  have hdt : d.toNat = 0 := Int.toNat_of_nonpos hd
  unfold wrapperCall wrapperRun
  rcases hr : (f.run a k).finishTime with _ | t
  · simp [timeoutTrace]
  · have h1 : 1 ≤ t := hslow t hr
    have hnle : ¬ t ≤ d.toNat := by omega
    simp [hnle, timeoutTrace]

/-- C2 amended, witnessed at deadline 0 on the work item returning `42`
after one unit. -/
theorem C2_amended_witness :
    (wrapperCall (some 0) fFortyTwo [] []).threadStarted = true ∧
    (wrapperCall (some 0) fFortyTwo [] []).timedOutBranch = true ∧
    (wrapperCall (some 0) fFortyTwo [] []).outcome = CallResult.returns PyVal.none ∧
    (wrapperCall (some 0) fFortyTwo [] []).logs.length = 1 :=
  C2_amended_no_validation 0 fFortyTwo [] [] (le_refl 0)
    (by intro t ht
        simp [fFortyTwo, WorkRun.finishTime] at ht
        omega)

/-- C3: the claim says every failure raised by in-time work is re-raised
and never converted into a successful result.  A work item that raises
an `Exception` instance whose Python truth value is `False`, finishing
well before the deadline, is on the join-succeeded path, yet the
wrapper's `if exception[0]:` truthiness test skips the re-raise and the
call returns `None` — the failure is silently converted into a
successful empty result. -/
theorem C3_counterexample :
    fFalsy.run [] [] = WorkRun.exc 1 falsyExc ∧
    falsyExc.isException = true ∧
    (1 : Nat) ≤ (5 : Int).toNat ∧
    (wrapperCall (some 5) fFalsy [] []).workerAliveAtReturn = false ∧
    (wrapperCall (some 5) fFalsy [] []).outcome = CallResult.returns PyVal.none := by
  refine ⟨rfl, rfl, by decide, rfl, rfl⟩

/-- C3 (amended): for every `Exception` raised by the work before the
deadline whose truth value is `True` (the default for exception
objects), the wrapper re-raises exactly the original exception object —
same identity, type and content, no wrapping, no log; an exception whose
truth value is `False` is instead silently dropped and the call returns
`None`. -/
theorem C3_amended_truthy_exception_reraised (d : Int) (f : PyFunc) (a : List PyVal)
    (k : List (String × PyVal)) (t : Nat) (e : PyExc)
    (hrun : f.run a k = WorkRun.exc t e)
    (hexc : e.isException = true) (htruthy : e.truthy = true)
    (ht : t ≤ d.toNat) :
    (wrapperCall (some d) f a k).outcome = CallResult.raises e ∧
    (wrapperCall (some d) f a k).logs = [] := by
  unfold wrapperCall wrapperRun
  simp [hrun, WorkRun.finishTime, ht, finishTrace, settle, targetCells, hexc, htruthy]

/-- C3 amended, witnessed on a work item raising a `ValueError` at time
1 under deadline 5. -/
theorem C3_amended_witness :
    (wrapperCall (some 5) fRaise [] []).outcome = CallResult.raises valueErr ∧
    (wrapperCall (some 5) fRaise [] []).logs = [] :=
  C3_amended_truthy_exception_reraised 5 fRaise [] [] 1 valueErr rfl rfl rfl (by decide)

/-- C4: for every positive deadline and work that completes normally
strictly before it, the wrapper returns exactly the value the work
produced (including `None`), on the non-timeout branch, with no log, and
it returns once, at the work's completion time, with that single
outcome. -/
theorem C4_success_returns_value (d : Int) (f : PyFunc) (a : List PyVal)
    (k : List (String × PyVal)) (t : Nat) (v : PyVal)
    (hd : 0 < d) (hrun : f.run a k = WorkRun.ret t v) (ht : (t : Int) < d) :
    (wrapperCall (some d) f a k).outcome = CallResult.returns v ∧
    (wrapperCall (some d) f a k).timedOutBranch = false ∧
    (wrapperCall (some d) f a k).logs = [] ∧
    (wrapperCall (some d) f a k).returnTime = some t := by
  have hle : t ≤ d.toNat := by omega
  unfold wrapperCall wrapperRun
  simp [hrun, WorkRun.finishTime, hle, finishTrace, settle, targetCells]

/-- C4, witnessed on the work item returning `42` at time 1 under
deadline 5, and on the work item returning `None` at time 1. -/
theorem C4_witness :
    (wrapperCall (some 5) fFortyTwo [] []).outcome = CallResult.returns (PyVal.int 42) ∧
    (wrapperCall (some 5) fNone [] []).outcome = CallResult.returns PyVal.none :=
  ⟨(C4_success_returns_value 5 fFortyTwo [] [] 1 (PyVal.int 42)
      (by decide) rfl (by decide)).1,
   (C4_success_returns_value 5 fNone [] [] 1 PyVal.none
      (by decide) rfl (by decide)).1⟩

/-- C5: the wrapper emits exactly one log event — at warning severity,
carrying the work's declared name, the deadline and the bound positional
and keyword arguments — when and only when the timeout branch is taken,
and it sends no interruption signal on any path; the trace records no
other executor side effect. -/
theorem C5_log_only_on_timeout (timeout : Option Int) (f : PyFunc) (a : List PyVal)
    (k : List (String × PyVal)) :
    (wrapperCall timeout f a k).logs =
      (if (wrapperCall timeout f a k).timedOutBranch then
        [{ level := Severity.warning, funcName := f.name, timeoutSecs := timeout,
           args := a, kwargs := k }]
      else []) ∧
    (wrapperCall timeout f a k).interruptSent = false := by
  unfold wrapperCall wrapperRun
  rcases timeout with _ | d <;> rcases hr : (f.run a k).finishTime with _ | t
  · simp [hangTrace]
  · simp [finishTrace]
  · simp [timeoutTrace]
  · by_cases hle : t ≤ d.toNat
    · simp [hle, finishTrace]
    · simp [hle, timeoutTrace]

/-- C6: when the deadline elapses before the work completes (or the work
never completes), the wrapper returns the timeout outcome `None`, sends
no interruption or cancellation signal, and leaves the worker thread
running; because this holds for every such work item — whatever value or
failure it eventually produces — the worker's eventual result is
discarded and never surfaced to the caller. -/
theorem C6_timeout_abandons_worker (d : Int) (f : PyFunc) (a : List PyVal)
    (k : List (String × PyVal))
    (hlate : ∀ t, (f.run a k).finishTime = some t → d.toNat < t) :
    (wrapperCall (some d) f a k).timedOutBranch = true ∧
    (wrapperCall (some d) f a k).outcome = CallResult.returns PyVal.none ∧
    (wrapperCall (some d) f a k).interruptSent = false ∧
    (wrapperCall (some d) f a k).workerAliveAtReturn = true := by
  unfold wrapperCall wrapperRun
  rcases hr : (f.run a k).finishTime with _ | t
  · simp [timeoutTrace]
  · have hnle : ¬ t ≤ d.toNat := Nat.not_le.mpr (hlate t hr)
    simp [hnle, timeoutTrace]

/-- C6, witnessed at deadline 5 on the diverging work item. -/
theorem C6_witness :
    (wrapperCall (some 5) fDiverge [] []).timedOutBranch = true ∧
    (wrapperCall (some 5) fDiverge [] []).outcome = CallResult.returns PyVal.none ∧
    (wrapperCall (some 5) fDiverge [] []).interruptSent = false ∧
    (wrapperCall (some 5) fDiverge [] []).workerAliveAtReturn = true :=
  C6_timeout_abandons_worker 5 fDiverge [] []
    (fun _ ht => Option.noConfusion ht)

/-- C7: invocations are mutually independent and stateless.  The trace
of a call threaded through the cross-invocation state equals the trace
of a fresh standalone call, whatever state earlier calls left behind
(including abandoned timed-out workers), and a second sequential call
with identical inputs — run after the first, in whatever state the first
left — produces exactly the same trace as the first. -/
theorem C7_sequential_calls_independent (timeout : Option Int) (f : PyFunc)
    (a : List PyVal) (k : List (String × PyVal)) (s : ExecState) :
    (wrapperCallSt timeout f a k s).1 = wrapperCall timeout f a k ∧
    (wrapperCallSt timeout f a k (wrapperCallSt timeout f a k s).2).1 =
      (wrapperCallSt timeout f a k s).1 :=
  ⟨rfl, rfl⟩

/-- C8: a `BaseException` that is not an `Exception` (such as
`SystemExit`), raised by the work before the deadline, escapes the
worker's `except Exception` handler: the error cell stays empty, the
failure is not propagated to the caller, and the wrapper returns the
untouched result cell's contents, `None`. -/
theorem C8_base_exception_not_captured (d : Int) (f : PyFunc) (a : List PyVal)
    (k : List (String × PyVal)) (t : Nat) (e : PyExc)
    (hrun : f.run a k = WorkRun.exc t e)
    (hbase : e.isException = false)
    (ht : t ≤ d.toNat) :
    (targetCells (f.run a k)).2 = Option.none ∧
    (wrapperCall (some d) f a k).outcome = CallResult.returns PyVal.none ∧
    (wrapperCall (some d) f a k).outcome ≠ CallResult.raises e := by
  unfold wrapperCall wrapperRun
  simp [hrun, WorkRun.finishTime, ht, finishTrace, settle, targetCells, hbase]

/-- C8, witnessed on the work item raising `SystemExit` at time 1 under
deadline 5. -/
theorem C8_witness :
    (targetCells (fSysExit.run [] [])).2 = Option.none ∧
    (wrapperCall (some 5) fSysExit [] []).outcome = CallResult.returns PyVal.none ∧
    (wrapperCall (some 5) fSysExit [] []).outcome ≠ CallResult.raises sysExit :=
  C8_base_exception_not_captured 5 fSysExit [] [] 1 sysExit rfl rfl (by decide)

/-- C9: `functools.wraps(func)` makes the decorated function carry the
original function's `__name__` and `__doc__`, and every log event the
wrapper ever emits names the original function, not the wrapper. -/
theorem C9_wraps_preserves_metadata (timeout : Option Int) (f : PyFunc) :
    (timeout_decorator timeout f).name = f.name ∧
    (timeout_decorator timeout f).doc = f.doc ∧
    ∀ a k ev, ev ∈ ((timeout_decorator timeout f).call a k).logs →
      ev.funcName = f.name := by
  refine ⟨rfl, rfl, ?_⟩
  intro a k ev hev
  unfold timeout_decorator wrapperCall wrapperRun at hev
  rcases timeout with _ | d
  · rcases hr : (f.run a k).finishTime with _ | t <;>
      simp [hr, hangTrace, finishTrace] at hev
  · rcases hr : (f.run a k).finishTime with _ | t
    · simp [hr, timeoutTrace] at hev
      rw [hev]
    · by_cases hle : t ≤ d.toNat
      · simp [hr, hle, finishTrace] at hev
      · simp [hr, hle, timeoutTrace] at hev
        rw [hev]

/-- C9, witnessed: the event logged by a timed-out call at deadline 0 on
the work item returning `42` names the original function. -/
theorem C9_witness :
    ({ level := Severity.warning, funcName := "f_forty_two", timeoutSecs := some 0,
       args := [], kwargs := [] } : LogEvent).funcName = fFortyTwo.name :=
  (C9_wraps_preserves_metadata (some 0) fFortyTwo).2.2 [] [] _ (by decide)

/-- C10: the claim says that with deadline `None` the call blocks until
the work terminates and then returns its value or re-raises its failure.
With deadline `None` on a work item that raises a falsy `Exception` at
time 1, the call does not re-raise that failure: it returns `None`
instead. -/
theorem C10_counterexample :
    fFalsy.run [] [] = WorkRun.exc 1 falsyExc ∧
    (wrapperCall Option.none fFalsy [] []).outcome = CallResult.returns PyVal.none ∧
    (wrapperCall Option.none fFalsy [] []).outcome ≠ CallResult.raises falsyExc := by
  refine ⟨rfl, rfl, ?_⟩
  decide

/-- C10 (amended): with deadline `None` the join waits without bound, so
the timeout branch is unreachable and the timeout marker and its log
event are never produced: on diverging work the call never returns; on
work that terminates, the call returns its value, re-raises its captured
failure when that failure is a truthy `Exception`, and otherwise (a
falsy `Exception`, or a `BaseException` outside `Exception`) returns
`None`. -/
theorem C10_amended_no_deadline (f : PyFunc) (a : List PyVal)
    (k : List (String × PyVal)) :
    (wrapperCall Option.none f a k).logs = [] ∧
    (wrapperCall Option.none f a k).timedOutBranch = false ∧
    (wrapperCall Option.none f a k).outcome =
      (match f.run a k with
       | WorkRun.diverge => CallResult.hangs
       | WorkRun.ret _ v => CallResult.returns v
       | WorkRun.exc _ e =>
           if e.isException && e.truthy then CallResult.raises e
           else CallResult.returns PyVal.none) := by
  unfold wrapperCall wrapperRun
  rcases hr : f.run a k with ⟨_, v⟩ | ⟨_, e⟩ | _
  · simp [hr, WorkRun.finishTime, finishTrace, settle, targetCells]
  · rcases e with ⟨ty, m, hexc, htr⟩
    cases hexc <;> cases htr <;>
      simp [hr, WorkRun.finishTime, finishTrace, settle, targetCells]
  · simp [hr, WorkRun.finishTime, hangTrace]

end CzscTimeout
